import Mathlib

/-!
Shallow embedding of the vkPost repository (files `get_vk_token.py` and
`vk_group_bot.py`) and verification of its specification claims.

Conventions of the embedding:
* Python bytes are `Nat` values (callers supply the bound `< 256` where it
  matters); byte strings are `List Nat`.
* Python exceptions are values of `PyError`; a fallible Python function
  becomes a Lean function into `Except PyError _`.
* Python truthiness on optional strings (`if x:` where `x` is `None` or a
  string) is `pyTruthy`; on optional ints it is `pyTruthyInt`.
* Network responses are supplied as explicit arguments (oracles): the HTTP
  transport is outside the program, so each function that performs a request
  takes the decoded JSON of the response as an input.
* Randomness (`secrets.token_bytes`) is likewise an explicit argument.
-/

/-- Exception values raised by the Python code.  `vkApiError` embeds the
repository's own `VkApiError`; the other constructors embed the builtin
Python exception classes that the code raises. -/
inductive PyError where
  | valueError (msg : String)
  | runtimeError (msg : String)
  | vkApiError (msg : String)
  | unicodeEncodeError (msg : String)
  | fileNotFoundError (msg : String)
  deriving Repr, DecidableEq

/-- Truthiness of an optional Python string: `None` and `""` are falsy. -/
def pyTruthy : Option String → Bool
  | none => false
  | some s => s ≠ ""

/-- Truthiness of an optional Python int: `None` and `0` are falsy. -/
def pyTruthyInt : Option Int → Bool
  | none => false
  | some n => n ≠ 0

/-- Python `str(x)` for an optional string as used in f-strings:
`None` prints as `"None"`. -/
def pyShowOptStr : Option String → String
  | none => "None"
  | some s => s

/-- Python `str(x)` for an optional int as used in f-strings. -/
def pyShowOptInt : Option Int → String
  | none => "None"
  | some n => toString n

/-- Characters Python's `str.strip()` removes at both ends (ASCII subset). -/
def pyIsSpace (c : Char) : Bool :=
  c = ' ' || c = '\t' || c = '\n' || c = '\x0d' || c = '\x0b' || c = '\x0c'

/-- Python `str.strip()` on the character list. -/
def pyStripChars (l : List Char) : List Char :=
  ((l.dropWhile pyIsSpace).reverse.dropWhile pyIsSpace).reverse

/-- Python `str.strip()`. -/
def pyStrip (s : String) : String :=
  String.mk (pyStripChars s.data)

/-- Python `str.encode("ascii")`: byte values of the characters, failing with
`UnicodeEncodeError` when a character is outside ASCII. -/
def encodeAscii (s : String) : Except PyError (List Nat) :=
  if s.data.all (fun c => c.toNat < 128) then
    .ok (s.data.map Char.toNat)
  else
    .error (.unicodeEncodeError "ascii codec cannot encode character")

/-! ### base64 URL-safe encoding (`base64.urlsafe_b64encode(...).rstrip("=")`) -/

/-- URL-safe base64 alphabet used by `base64.urlsafe_b64encode`. -/
def b64urlAlphabet : List Char :=
  "ABCDEFGHIJKLMNOPQRSTUVWXYZabcdefghijklmnopqrstuvwxyz0123456789-_".data

/-- Character of the URL-safe base64 alphabet at a 6-bit index. -/
def b64Char (n : Nat) : Char := b64urlAlphabet.getD n 'A'

/-- Unpadded base64 of a byte list, three input bytes per four output
characters; the final one or two leftover bytes yield two or three characters
(this is exactly the effect of padding with `=` and then stripping it). -/
def b64Chunks : List Nat → List Char
  | [] => []
  | [b1] => [b64Char (b1 / 4), b64Char (b1 % 4 * 16)]
  | [b1, b2] => [b64Char (b1 / 4), b64Char (b1 % 4 * 16 + b2 / 16), b64Char (b2 % 16 * 4)]
  | b1 :: b2 :: b3 :: rest =>
      b64Char (b1 / 4) :: b64Char (b1 % 4 * 16 + b2 / 16) ::
      b64Char (b2 % 16 * 4 + b3 / 64) :: b64Char (b3 % 64) :: b64Chunks rest

/-- Embedding of `base64url_encode` (get_vk_token.py, lines 49-51):
URL-safe base64 without trailing `=`. -/
def base64url_encode (data : List Nat) : String :=
  String.mk (b64Chunks data)

/-- Embedding of `generate_code_verifier` (get_vk_token.py, lines 54-71).
`raw` stands for the `length` random bytes drawn by
`secrets.token_bytes(length)`. -/
def generate_code_verifier (length : Nat) (raw : List Nat) : Except PyError String :=
  if length < 43 ∨ length > 128 then
    .error (.valueError "length must be between 43 and 128")
  else
    let verifier := base64url_encode raw
    if verifier.length < 43 then
      .ok (verifier ++ String.mk (List.replicate (43 - verifier.length) 'A'))
    else if verifier.length > 128 then
      .ok (String.mk (verifier.data.take 128))
    else
      .ok verifier

/-! ### SHA-256 (model of `hashlib.sha256`) -/

/-- Truncation to a 32-bit word. -/
def w32 (n : Nat) : Nat := n % 4294967296

/-- Right rotation of a 32-bit word by `n` places. -/
def rotr32 (n x : Nat) : Nat := x / 2 ^ n + x % 2 ^ n * 2 ^ (32 - n)

/-- SHA-256 choice function. -/
def shaCh (x y z : Nat) : Nat := (x &&& y) ^^^ ((x ^^^ 4294967295) &&& z)

/-- SHA-256 majority function. -/
def shaMaj (x y z : Nat) : Nat := (x &&& y) ^^^ (x &&& z) ^^^ (y &&& z)

/-- SHA-256 big sigma 0. -/
def bigS0 (x : Nat) : Nat := rotr32 2 x ^^^ rotr32 13 x ^^^ rotr32 22 x

/-- SHA-256 big sigma 1. -/
def bigS1 (x : Nat) : Nat := rotr32 6 x ^^^ rotr32 11 x ^^^ rotr32 25 x

/-- SHA-256 small sigma 0. -/
def smallS0 (x : Nat) : Nat := rotr32 7 x ^^^ rotr32 18 x ^^^ x / 2 ^ 3

/-- SHA-256 small sigma 1. -/
def smallS1 (x : Nat) : Nat := rotr32 17 x ^^^ rotr32 19 x ^^^ x / 2 ^ 10

/-- SHA-256 round constants. -/
def shaK : List Nat :=
  [1116352408, 1899447441, 3049323471, 3921009573, 961987163, 1508970993,
   2453635748, 2870763221, 3624381080, 310598401, 607225278, 1426881987,
   1925078388, 2162078206, 2614888103, 3248222580, 3835390401, 4022224774,
   264347078, 604807628, 770255983, 1249150122, 1555081692, 1996064986,
   2554220882, 2821834349, 2952996808, 3210313671, 3336571891, 3584528711,
   113926993, 338241895, 666307205, 773529912, 1294757372, 1396182291,
   1695183700, 1986661051, 2177026350, 2456956037, 2730485921, 2820302411,
   3259730800, 3345764771, 3516065817, 3600352804, 4094571909, 275423344,
   430227734, 506948616, 659060556, 883997877, 958139571, 1322822218,
   1537002063, 1747873779, 1955562222, 2024104815, 2227730452, 2361852424,
   2428436474, 2756734187, 3204031479, 3329325298]

/-- SHA-256 initial hash value. -/
def shaH0 : List Nat :=
  [1779033703, 3144134277, 1013904242, 2773480762,
   1359893119, 2600822924, 528734635, 1541459225]

/-- Big-endian byte representation of `n` in `k` bytes. -/
def toBytesBE : Nat → Nat → List Nat
  | 0, _ => []
  | k + 1, n => toBytesBE k (n / 256) ++ [n % 256]

/-- SHA-256 message padding: append `0x80`, zero bytes, and the 64-bit
big-endian bit length, reaching a multiple of 64 bytes. -/
def padMessage (msg : List Nat) : List Nat :=
  let padLen := (64 - (msg.length + 9) % 64) % 64
  msg ++ 128 :: List.replicate padLen 0 ++ toBytesBE 8 (8 * msg.length)

/-- Group bytes into big-endian 32-bit words. -/
def bytesToWords : List Nat → List Nat
  | b1 :: b2 :: b3 :: b4 :: rest =>
      (((b1 * 256 + b2) * 256 + b3) * 256 + b4) :: bytesToWords rest
  | _ => []

/-- Extend the 16-word message schedule by `k` further words. -/
def scheduleExtend : Nat → List Nat → List Nat
  | 0, ws => ws
  | k + 1, ws =>
      let i := ws.length
      let nw := w32 (smallS1 (ws.getD (i - 2) 0) + ws.getD (i - 7) 0 +
                     smallS0 (ws.getD (i - 15) 0) + ws.getD (i - 16) 0)
      scheduleExtend k (ws ++ [nw])

/-- Full 64-word message schedule of one block. -/
def schedule (ws : List Nat) : List Nat := scheduleExtend 48 ws

/-- One SHA-256 compression round on the state `[a,b,c,d,e,f,g,h]`. -/
def compressStep (st : List Nat) (ki wi : Nat) : List Nat :=
  let a := st.getD 0 0
  let b := st.getD 1 0
  let c := st.getD 2 0
  let d := st.getD 3 0
  let e := st.getD 4 0
  let f := st.getD 5 0
  let g := st.getD 6 0
  let h := st.getD 7 0
  let t1 := w32 (h + bigS1 e + shaCh e f g + ki + wi)
  let t2 := w32 (bigS0 a + shaMaj a b c)
  [w32 (t1 + t2), a, b, c, w32 (d + t1), e, f, g]

/-- SHA-256 compression of one 64-byte block into the chaining value. -/
def compressBlock (H : List Nat) (block : List Nat) : List Nat :=
  let ws := schedule (bytesToWords block)
  let st := (shaK.zip ws).foldl (fun st p => compressStep st p.1 p.2) H
  (H.zip st).map (fun p => w32 (p.1 + p.2))

/-- Fold the compression function over the 64-byte blocks of a padded
message; the first argument is the number of blocks (structural fuel, so that
the definition reduces inside the kernel). -/
def sha256Blocks : Nat → List Nat → List Nat → List Nat
  | 0, H, _ => H
  | fuel + 1, H, bytes =>
      sha256Blocks fuel (compressBlock H (bytes.take 64)) (bytes.drop 64)

/-- SHA-256 digest (32 bytes) of a byte list; model of
`hashlib.sha256(bytes).digest()`. -/
def sha256 (msg : List Nat) : List Nat :=
  let padded := padMessage msg
  (sha256Blocks (padded.length / 64) shaH0 padded).foldr
    (fun w acc => toBytesBE 4 w ++ acc) []

/-- Embedding of `generate_code_challenge` (get_vk_token.py, lines 74-77):
`base64url_encode` of the SHA-256 digest of the verifier's ASCII bytes.
The `Except` layer models the `UnicodeEncodeError` that
`verifier.encode("ascii")` raises on non-ASCII input. -/
def generate_code_challenge (verifier : String) : Except PyError String :=
  match encodeAscii verifier with
  | .error e => .error e
  | .ok bytes => .ok (base64url_encode (sha256 bytes))

/-! ### Percent-encoding (`urllib.parse.quote_plus` / `urlencode`) -/

/-- Characters `urllib.parse.quote` never escapes: ASCII alphanumerics and
`_.-~`. -/
def isAlwaysSafe (c : Char) : Bool :=
  c.isAlpha || c.isDigit || c = '_' || c = '.' || c = '-' || c = '~'

/-- UTF-8 encoding of one character. -/
def utf8Bytes (c : Char) : List Nat :=
  let n := c.toNat
  if n < 128 then [n]
  else if n < 2048 then [192 + n / 64, 128 + n % 64]
  else if n < 65536 then [224 + n / 4096, 128 + n / 64 % 64, 128 + n % 64]
  else [240 + n / 262144, 128 + n / 4096 % 64, 128 + n / 64 % 64, 128 + n % 64]

/-- Upper-case hexadecimal digit. -/
def hexDigit (n : Nat) : Char := "0123456789ABCDEF".data.getD n '0'

/-- Percent-escape of one byte, e.g. `%2F`. -/
def pctByte (b : Nat) : List Char := ['%', hexDigit (b / 16), hexDigit (b % 16)]

/-- Model of `urllib.parse.quote_plus` with its default `safe=''`: safe
characters pass through, a space becomes `+`, everything else is
percent-escaped byte-wise over its UTF-8 encoding. -/
def quote_plus (s : String) : String :=
  String.mk (s.data.foldr
    (fun c acc =>
      if isAlwaysSafe c then c :: acc
      else if c = ' ' then '+' :: acc
      else (utf8Bytes c).foldr (fun b a => pctByte b ++ a) acc) [])

/-- Python `"&".join`. -/
def joinAmp : List String → String
  | [] => ""
  | [x] => x
  | x :: y :: rest => x ++ "&" ++ joinAmp (y :: rest)

/-- Model of `urllib.parse.urlencode` on an ordered list of key/value pairs
(a Python dict iterates in insertion order). -/
def urlencode (pairs : List (String × String)) : String :=
  joinAmp (pairs.map (fun p => quote_plus p.1 ++ "=" ++ quote_plus p.2))

/-! ### get_vk_token.py configuration and authorization URL -/

/-- Module constant `AUTH_URL` of get_vk_token.py. -/
def AUTH_URL : String := "https://id.vk.com/authorize"

/-- Embedding of the dataclass `VkAppConfig` (get_vk_token.py, lines 41-46). -/
structure VkAppConfig where
  client_id : String
  redirect_uri : String := "https://oauth.vk.com/blank.html"
  scope : String := "wall,photos,groups"
  state : String := "vk_cli_state_12345"
  deriving Repr, DecidableEq

/-- Embedding of `build_authorize_url` (get_vk_token.py, lines 113-124). -/
def build_authorize_url (cfg : VkAppConfig) (code_challenge : String) : String :=
  AUTH_URL ++ "?" ++ urlencode
    [("response_type", "code"),
     ("client_id", cfg.client_id),
     ("scope", cfg.scope),
     ("redirect_uri", cfg.redirect_uri),
     ("state", cfg.state),
     ("code_challenge", code_challenge),
     ("code_challenge_method", "S256")]

/-! ### URL splitting and query-string parsing
(`urllib.parse.urlparse` / `parse_qs` / `unquote_plus`) -/

/-- Split a character list at the first occurrence of `sep`: the part before
it and, when `sep` occurs, the part after it. -/
def splitFirst (sep : Char) : List Char → List Char × Option (List Char)
  | [] => ([], none)
  | c :: rest =>
      if c = sep then ([], some rest)
      else
        let r := splitFirst sep rest
        (c :: r.1, r.2)

/-- Sanitization `urllib.parse.urlsplit` applies before splitting: strip
leading C0-control-or-space characters, then remove every tab, carriage
return, and line feed. -/
def urlsplitSanitize (l : List Char) : List Char :=
  (l.dropWhile (fun c => c.toNat ≤ 32)).filter
    (fun c => ¬(c = '\t' ∨ c = '\n' ∨ c = '\x0d'))

/-- Query and fragment components of a URL, as `urllib.parse.urlparse` yields
them: after sanitization, the fragment is everything after the first `#`, the
query everything after the first `?` of what precedes the fragment (neither
`#` nor `?` may occur in a scheme or netloc, so splitting the whole string is
equivalent). -/
def urlQueryFragment (url : String) : String × String :=
  let (beforeFrag, frag) := splitFirst '#' (urlsplitSanitize url.data)
  let (_, q) := splitFirst '?' beforeFrag
  (String.mk (q.getD []), String.mk (frag.getD []))

/-- Value of a hexadecimal digit character. -/
def hexVal (c : Char) : Option Nat :=
  if '0' ≤ c ∧ c ≤ '9' then some (c.toNat - '0'.toNat)
  else if 'a' ≤ c ∧ c ≤ 'f' then some (c.toNat - 'a'.toNat + 10)
  else if 'A' ≤ c ∧ c ≤ 'F' then some (c.toNat - 'A'.toNat + 10)
  else none

/-- Tokenize a percent-encoded character list: each valid `%XX` escape
becomes a byte (`Sum.inl`), every other character stays literal
(`Sum.inr`); an invalid escape keeps its `%` literal, as CPython does. -/
def pctTokens : List Char → List (Nat ⊕ Char)
  | [] => []
  | '%' :: a :: b :: rest =>
      match hexVal a, hexVal b with
      | some ha, some hb => Sum.inl (16 * ha + hb) :: pctTokens rest
      | _, _ => Sum.inr '%' :: pctTokens (a :: b :: rest)
  | c :: rest => Sum.inr c :: pctTokens rest

/-- Replacement character emitted for undecodable byte sequences. -/
def replacementChar : Char := Char.ofNat 65533

/-- Whether a byte is a UTF-8 continuation byte. -/
def isCont (b : Nat) : Bool := 128 ≤ b && b ≤ 191

/-- UTF-8 decoding with replacement of invalid sequences, structurally
recursive on a fuel bound (always called with fuel at least the list
length, so the fuel never runs out). -/
def utf8Dec : Nat → List Nat → List Char
  | 0, _ => []
  | _, [] => []
  | fuel + 1, b :: rest =>
      if b < 128 then Char.ofNat b :: utf8Dec fuel rest
      else if 194 ≤ b ∧ b ≤ 223 then
        match rest with
        | b2 :: rest2 =>
            if isCont b2 then Char.ofNat ((b - 192) * 64 + (b2 - 128)) :: utf8Dec fuel rest2
            else replacementChar :: utf8Dec fuel rest
        | [] => [replacementChar]
      else if 224 ≤ b ∧ b ≤ 239 then
        match rest with
        | b2 :: rest2 =>
            if isCont b2 && !(b = 224 && b2 < 160) && !(b = 237 && b2 > 159) then
              match rest2 with
              | b3 :: rest3 =>
                  if isCont b3 then
                    Char.ofNat ((b - 224) * 4096 + (b2 - 128) * 64 + (b3 - 128)) ::
                      utf8Dec fuel rest3
                  else replacementChar :: utf8Dec fuel rest2
              | [] => [replacementChar]
            else replacementChar :: utf8Dec fuel rest
        | [] => [replacementChar]
      else if 240 ≤ b ∧ b ≤ 244 then
        match rest with
        | b2 :: rest2 =>
            if isCont b2 && !(b = 240 && b2 < 144) && !(b = 244 && b2 > 143) then
              match rest2 with
              | b3 :: rest3 =>
                  if isCont b3 then
                    match rest3 with
                    | b4 :: rest4 =>
                        if isCont b4 then
                          Char.ofNat ((b - 240) * 262144 + (b2 - 128) * 4096 +
                            (b3 - 128) * 64 + (b4 - 128)) :: utf8Dec fuel rest4
                        else replacementChar :: utf8Dec fuel rest3
                    | [] => [replacementChar]
                  else replacementChar :: utf8Dec fuel rest2
              | [] => [replacementChar]
            else replacementChar :: utf8Dec fuel rest
        | [] => [replacementChar]
      else replacementChar :: utf8Dec fuel rest

/-- UTF-8 decoding of a byte run with replacement of invalid sequences
(model of `bytes.decode("utf-8", errors="replace")`). -/
def utf8DecodeReplace (bs : List Nat) : List Char := utf8Dec bs.length bs

/-- Splice decoded byte runs back between the literal characters: consecutive
escaped bytes are UTF-8-decoded as one run, exactly as `urllib.parse.unquote`
does. -/
def spliceRuns : List (Nat ⊕ Char) → List Nat → List Char
  | [], acc => utf8DecodeReplace acc.reverse
  | Sum.inl b :: rest, acc => spliceRuns rest (b :: acc)
  | Sum.inr c :: rest, acc => utf8DecodeReplace acc.reverse ++ c :: spliceRuns rest []

/-- Model of `urllib.parse.unquote_plus`: `+` becomes a space, then `%XX`
escapes are decoded (UTF-8 with replacement, per run of adjacent escapes). -/
def unquote_plus (s : String) : String :=
  String.mk (spliceRuns (pctTokens (s.data.map (fun c => if c = '+' then ' ' else c))) [])

/-- Split a character list on every occurrence of `sep`
(Python `str.split(sep)`). -/
def splitAllOn (sep : Char) : List Char → List (List Char)
  | [] => [[]]
  | c :: rest =>
      let r := splitAllOn sep rest
      if c = sep then [] :: r
      else (c :: r.headD []) :: r.tail

/-- Model of `urllib.parse.parse_qsl` with default arguments (separator `&`,
blank values dropped): the ordered list of decoded name/value pairs. -/
def parse_qsl (qs : String) : List (String × String) :=
  (splitAllOn '&' qs.data).filterMap (fun nv =>
    if nv = [] then none
    else
      match splitFirst '=' nv with
      | (_, none) => none
      | (nm, some v) =>
          if v = [] then none
          else some (unquote_plus (String.mk nm), unquote_plus (String.mk v)))

/-- Lookup in the dict produced by `urllib.parse.parse_qs`: the list of
values bound to `name`, in order.  The name is absent from the dict exactly
when this list is empty (`parse_qs` never stores an empty value list). -/
def parse_qs (qs : String) (name : String) : List String :=
  (parse_qsl qs).filterMap (fun p => if p.1 = name then some p.2 else none)

/-! ### Redirect-URL parsing (get_vk_token.py, lines 127-157) -/

/-- Inner `get_param` of `parse_redirect_url`: first value bound to `name` in
the query string, else in the fragment, else `none`.  (The source guard
`name in qs and qs[name]` is equivalent to the value list being nonempty;
the source's special case of an empty fragment changes nothing because
`parse_qs` of the empty string is empty.) -/
def redirect_get_param (q f : String) (name : String) : Option String :=
  match parse_qs q name with
  | v :: _ => some v
  | [] =>
      match parse_qs f name with
      | v :: _ => some v
      | [] => none

/-- Message of the `ValueError` raised when `code` is missing. -/
def codeMissingMsg : String :=
  "В URL не найден параметр 'code'. Убедись, что скопировал всю строку полностью."

/-- Message of the `ValueError` raised when `device_id` is missing. -/
def deviceIdMissingMsg : String :=
  "В URL не найден параметр 'device_id'. Скопируй адресную строку целиком и повтори."

/-- Embedding of `parse_redirect_url` (get_vk_token.py, lines 127-157). -/
def parse_redirect_url (url : String) : Except PyError (String × String) :=
  let qf := urlQueryFragment (pyStrip url)
  let code := redirect_get_param qf.1 qf.2 "code"
  let device_id := redirect_get_param qf.1 qf.2 "device_id"
  if ¬ pyTruthy code then .error (.valueError codeMissingMsg)
  else if ¬ pyTruthy device_id then .error (.valueError deviceIdMissingMsg)
  else .ok (code.getD "", device_id.getD "")

/-! ### Token endpoint exchanges -/

/-- JSON body returned by the token endpoint, with the fields the program
reads; `none` models an absent key (tokens are strings, `expires_in` an
int in the service's responses). -/
structure TokenResponse where
  error : Option String := none
  error_description : Option String := none
  access_token : Option String := none
  refresh_token : Option String := none
  expires_in : Option Int := none
  deriving Repr, DecidableEq

/-- Embedding of `exchange_code_for_token` (get_vk_token.py, lines 160-202).
`token_data` is the decoded JSON of the endpoint's response; the request
marshaling has no observable effect beyond the response and is elided. -/
def exchange_code_for_token (cfg : VkAppConfig) (code device_id code_verifier : String)
    (token_data : TokenResponse) : Except PyError TokenResponse :=
  if token_data.error.isSome then
    .error (.runtimeError ("VK вернул ошибку при обмене кода: " ++
      pyShowOptStr token_data.error ++ " — " ++ pyShowOptStr token_data.error_description))
  else .ok token_data

/-- Embedding of `refresh_access_token` (vk_group_bot.py, lines 259-300).
`token_data` is the decoded JSON of the endpoint's response. -/
def refresh_access_token (refresh_token client_id client_secret : String)
    (token_data : TokenResponse) : Except PyError (String × Option String × Option Int) :=
  if token_data.error.isSome then
    .error (.vkApiError ("VK OAuth error " ++ pyShowOptStr token_data.error ++ ": " ++
      pyShowOptStr token_data.error_description))
  else if ¬ pyTruthy token_data.access_token then
    .error (.vkApiError "VK OAuth не вернул access_token при обновлении по refresh_token.")
  else
    .ok (token_data.access_token.getD "", token_data.refresh_token, token_data.expires_in)

/-! ### vk_group_bot.py state and token acquisition -/

/-- Mutable locals of `main` (vk_group_bot.py) that `ensure_user_access_token`
closes over, together with an instrumentation counter of calls made to
`refresh_access_token` and the list of messages printed to stderr (most
recent first). -/
structure BotState where
  user_access_token : Option String
  refresh_token : Option String
  refresh_calls : Nat
  stderr : List String
  deriving Repr, DecidableEq

/-- Stderr notice printed when the token endpoint rotates the refresh token
(vk_group_bot.py, lines 384-389). -/
def rotationNotice (new_refresh : String) : String :=
  "ВНИМАНИЕ: VK выдал новый refresh_token. Обнови VK_USER_TOKEN в своём .env на значение ниже:\n" ++
    new_refresh ++ "\n"

/-- Embedding of the closure `ensure_user_access_token` (vk_group_bot.py,
lines 353-393).  `tokenEndpoint` maps the refresh token sent to the JSON the
endpoint answers with; the returned state reflects the closure's `nonlocal`
writes, which persist whether or not an exception is raised. -/
def ensure_user_access_token (oauth_client_id oauth_client_secret : Option String)
    (tokenEndpoint : String → TokenResponse) (reason : String) (s : BotState) :
    BotState × Except PyError String :=
  if pyTruthy s.user_access_token then
    (s, .ok (s.user_access_token.getD ""))
  else if ¬ pyTruthy s.refresh_token then
    (s, .error (.vkApiError ("Нужен VK_USER_TOKEN (refresh_token), чтобы " ++ reason ++
      ". Сейчас VK_USER_TOKEN не задан.")))
  else if ¬ (pyTruthy oauth_client_id ∧ pyTruthy oauth_client_secret) then
    (s, .error (.vkApiError ("Нужны VK_OAUTH_CLIENT_ID и VK_OAUTH_CLIENT_SECRET, чтобы " ++ reason ++
      ". Сейчас один из них не задан.")))
  else
    let rt := s.refresh_token.getD ""
    let s1 : BotState := { s with refresh_calls := s.refresh_calls + 1 }
    match refresh_access_token rt (oauth_client_id.getD "") (oauth_client_secret.getD "")
        (tokenEndpoint rt) with
    | .error e => (s1, .error e)
    | .ok (access_token, new_refresh, _expires_in) =>
        let s2 : BotState := { s1 with user_access_token := some access_token }
        match new_refresh with
        | some nr =>
            if nr ≠ "" ∧ nr ≠ rt then
              ({ s2 with refresh_token := some nr,
                         stderr := rotationNotice nr :: s2.stderr }, .ok access_token)
            else (s2, .ok access_token)
        | none => (s2, .ok access_token)

/-! ### VK API calls (vk_group_bot.py) -/

/-- Decoded JSON answer of a VK API method as `vk_request` distinguishes it:
either an `error` object (with its optional `error_code` and `error_msg`
fields) or the `response` payload. -/
inductive VkApiResult (α : Type) where
  | apiError (error_code : Option Int) (error_msg : Option String)
  | response (val : α)

/-- Embedding of `vk_request` (vk_group_bot.py, lines 46-63), given the
decoded JSON of the HTTP response. -/
def vk_request {α : Type} (r : VkApiResult α) : Except PyError α :=
  match r with
  | .apiError c m =>
      .error (.vkApiError ("VK API error " ++ pyShowOptInt c ++ ": " ++ pyShowOptStr m))
  | .response v => .ok v

/-- `response` object of `wall.post` / `wall.edit`, with the one field the
program reads. -/
structure WallResponse where
  post_id : Option Int := none
  deriving Repr, DecidableEq

/-- Embedding of `post_to_group_wall` (vk_group_bot.py, lines 145-171);
`wallResp` is the decoded answer of the `wall.post` call. -/
def post_to_group_wall (group_id : Int) (token : String) (message : String)
    (attachments : Option (List String)) (wallResp : VkApiResult WallResponse) :
    Except PyError Int := do
  let response ← vk_request wallResp
  return response.post_id.getD (-1)

/-- Embedding of `edit_group_wall_post` (vk_group_bot.py, lines 174-199);
`wallResp` is the decoded answer of the `wall.edit` call. -/
def edit_group_wall_post (group_id : Int) (token : String) (post_id : Int) (message : String)
    (attachments : Option (List String)) (wallResp : VkApiResult WallResponse) :
    Except PyError Int := do
  let response ← vk_request wallResp
  return response.post_id.getD post_id

/-! ### Photo upload (vk_group_bot.py, lines 84-142) -/

/-- Response of `photos.getWallUploadServer`. -/
structure UploadServerResponse where
  upload_url : String
  deriving Repr, DecidableEq

/-- JSON answer of the POST to the upload URL; the program only checks the
presence of the keys `photo`, `server`, `hash` and forwards their values, so
each is an optional opaque string here. -/
structure UploadResult where
  photo : Option String := none
  server : Option String := none
  hash : Option String := none
  deriving Repr, DecidableEq

/-- One element of the `photos.saveWallPhoto` response list. -/
structure SavedPhoto where
  owner_id : Int
  id : Int
  deriving Repr, DecidableEq

/-- Attachment string `f"photo{owner_id}_{photo_id}"` built at
vk_group_bot.py, line 140. -/
def attachmentString (p : SavedPhoto) : String :=
  "photo" ++ toString p.owner_id ++ "_" ++ toString p.id

/-- Per-image loop of `upload_photos_for_wall`.  Besides the result it
returns the trace of sources whose photos were registered with
`photos.saveWallPhoto` (in order), which survives a later failure — the
code performs no rollback.  (The Python message for a malformed upload
response appends `repr` of the response dict; that suffix is elided.) -/
def uploadLoop (loadBinary : String → Except PyError (List Nat))
    (uploadServer : String → UploadResult)
    (savePhoto : String → VkApiResult (List SavedPhoto)) :
    List String → List String → List String → Except PyError (List String) × List String
  | [], atts, saved => (.ok atts.reverse, saved.reverse)
  | src :: rest, atts, saved =>
      match loadBinary src with
      | .error e => (.error e, saved.reverse)
      | .ok _data =>
          let upload_result := uploadServer src
          if ¬ (upload_result.photo.isSome ∧ upload_result.server.isSome ∧
                upload_result.hash.isSome) then
            (.error (.vkApiError "Неожиданный ответ сервера загрузки фото"), saved.reverse)
          else
            match vk_request (savePhoto src) with
            | .error e => (.error e, saved.reverse)
            | .ok [] =>
                (.error (.vkApiError "VK API не вернул данные о сохранённом фото."), saved.reverse)
            | .ok (photo_obj :: _) =>
                uploadLoop loadBinary uploadServer savePhoto rest
                  (attachmentString photo_obj :: atts) (src :: saved)

/-- Embedding of `upload_photos_for_wall` (vk_group_bot.py, lines 84-142).
The oracles give, per image source, the loaded bytes, the upload server's
JSON answer, and the `photos.saveWallPhoto` answer; `getUploadServer` is the
answer of the initial `photos.getWallUploadServer` call.  Returns the result
together with the trace of sources registered before any failure. -/
def upload_photos_for_wall (group_id : Int) (access_token : String)
    (image_sources : List String)
    (getUploadServer : VkApiResult UploadServerResponse)
    (loadBinary : String → Except PyError (List Nat))
    (uploadServer : String → UploadResult)
    (savePhoto : String → VkApiResult (List SavedPhoto)) :
    Except PyError (List String) × List String :=
  if image_sources.isEmpty then (.ok [], [])
  else
    match vk_request getUploadServer with
    | .error e => (.error e, [])
    | .ok upload_server =>
        let _upload_url := upload_server.upload_url
        uploadLoop loadBinary uploadServer savePhoto image_sources [] []

/-! ### Command line, environment and `main` (vk_group_bot.py, lines 202-462) -/

/-- `argparse.Namespace` fields of `parse_args`; `images` and `attachments`
use `action="append"`, so an absent flag is `None`. -/
structure Args where
  message : Option String := none
  message_file : Option String := none
  images : Option (List String) := none
  attachments : Option (List String) := none
  edit : Option Int := none

/-- Environment variables `main` reads; `none` models an unset variable. -/
structure Env where
  VK_GROUP_ID : Option String := none
  VK_GROUP_TOKEN : Option String := none
  VK_USER_TOKEN : Option String := none
  VK_OAUTH_CLIENT_ID : Option String := none
  VK_OAUTH_CLIENT_SECRET : Option String := none
  VK_ACCESS_TOKEN : Option String := none

/-- All external behavior `main` can observe: the filesystem (path to file
contents, `none` for a missing file) and the decoded responses of every
network endpoint. -/
structure World where
  fileContents : String → Option String
  tokenEndpoint : String → TokenResponse
  getUploadServer : VkApiResult UploadServerResponse
  loadBinary : String → Except PyError (List Nat)
  uploadServer : String → UploadResult
  savePhoto : String → VkApiResult (List SavedPhoto)
  wallPost : VkApiResult WallResponse
  wallEdit : VkApiResult WallResponse

/-- Embedding of `read_message_from_args` (vk_group_bot.py, lines 202-217). -/
def read_message_from_args (args : Args) (fileContents : String → Option String) :
    Except PyError String :=
  if pyTruthy args.message ∧ pyTruthy args.message_file then
    .error (.valueError "Используй либо --message, либо --message-file, но не оба сразу.")
  else if pyTruthy args.message then .ok (args.message.getD "")
  else if pyTruthy args.message_file then
    match fileContents (args.message_file.getD "") with
    | none =>
        .error (.fileNotFoundError ("Файл с текстом не найден: " ++ args.message_file.getD ""))
    | some content => .ok content
  else .error (.valueError "Нужно указать --message или --message-file.")

/-- Numeric value of a digit list, when nonempty and all digits. -/
def digitsToNat (l : List Char) : Option Nat :=
  if l ≠ [] ∧ l.all Char.isDigit then
    some (l.foldl (fun acc c => acc * 10 + (c.toNat - 48)) 0)
  else none

/-- Model of Python `int(str)`: strip whitespace, optional sign, decimal
digits (`none` models the `ValueError`; digit-group underscores are not
modeled). -/
def pyParseInt (s : String) : Option Int :=
  match pyStripChars s.data with
  | '-' :: ds => (digitsToNat ds).map (fun n => -(n : Int))
  | '+' :: ds => (digitsToNat ds).map (fun n => (n : Int))
  | ds => (digitsToNat ds).map (fun n => (n : Int))

/-- Reason string of the first `ensure_user_access_token` call site
(vk_group_bot.py, line 398). -/
def reasonUpload : String := "загрузить изображения в пост"

/-- Reason string of the second `ensure_user_access_token` call site
(vk_group_bot.py, line 418). -/
def reasonWall : String := "вызвать wall.post / wall.edit"

/-- Step 4 of `main` (vk_group_bot.py, lines 436-462): the `wall.edit` or
`wall.post` call.  A `VkApiError` is caught and turns into exit code 1;
state no longer changes here. -/
def mainPostStage (args : Args) (w : World) (s : BotState) (group_id : Int)
    (message : String) (attachments : List String)
    (access_token_for_upload wall_token : Option String) : BotState × Except PyError Int :=
  match wall_token with
  | none => (s, .ok 1)
  | some wt =>
      let atts : Option (List String) := if attachments = [] then none else some attachments
      if pyTruthyInt args.edit then
        let tok := if pyTruthy access_token_for_upload then access_token_for_upload.getD "" else wt
        match edit_group_wall_post group_id tok (args.edit.getD 0) message atts w.wallEdit with
        | .ok _post_id => (s, .ok 0)
        | .error (.vkApiError _) => (s, .ok 1)
        | .error e => (s, .error e)
      else
        match post_to_group_wall group_id wt message atts w.wallPost with
        | .ok _post_id => (s, .ok 0)
        | .error (.vkApiError _) => (s, .ok 1)
        | .error e => (s, .error e)

/-- Step 3 of `main` (vk_group_bot.py, lines 412-434): choose the token for
`wall.post` / `wall.edit`, falling back to a refresh when neither a community
token nor a user access token is at hand (that failure is caught: exit 1). -/
def mainWallTokenStage (args : Args) (env : Env) (w : World) (s : BotState) (group_id : Int)
    (message : String) (attachments : List String) (access_token_for_upload : Option String) :
    BotState × Except PyError Int :=
  let wall_token : Option String :=
    if pyTruthy env.VK_GROUP_TOKEN then env.VK_GROUP_TOKEN else s.user_access_token
  match wall_token with
  | none =>
      match ensure_user_access_token env.VK_OAUTH_CLIENT_ID env.VK_OAUTH_CLIENT_SECRET
          w.tokenEndpoint reasonWall s with
      | (s2, .error _) => (s2, .ok 1)
      | (s2, .ok t) =>
          mainPostStage args w s2 group_id message attachments access_token_for_upload (some t)
  | some _ =>
      mainPostStage args w s group_id message attachments access_token_for_upload wall_token

/-- Step 2 of `main` (vk_group_bot.py, lines 400-410): upload the requested
images; any failure there is caught and gives exit code 1. -/
def mainUploadStage (args : Args) (env : Env) (w : World) (s : BotState) (group_id : Int)
    (message : String) (attachments : List String) (image_sources : List String)
    (access_token_for_upload : Option String) : BotState × Except PyError Int :=
  if image_sources.isEmpty then
    mainWallTokenStage args env w s group_id message attachments access_token_for_upload
  else
    match (upload_photos_for_wall group_id (access_token_for_upload.getD "") image_sources
        w.getUploadServer w.loadBinary w.uploadServer w.savePhoto).1 with
    | .error _ => (s, .ok 1)
    | .ok uploaded =>
        mainWallTokenStage args env w s group_id message (attachments ++ uploaded)
          access_token_for_upload

/-- Locals of `main` as they stand after line 351 of vk_group_bot.py. -/
def initState (env : Env) : BotState :=
  { user_access_token := env.VK_ACCESS_TOKEN, refresh_token := env.VK_USER_TOKEN,
    refresh_calls := 0, stderr := [] }

namespace vk_group_bot

/-- Embedding of `main` (vk_group_bot.py, lines 303-462).  The pair holds the
final mutable state and either the return code or an uncaught exception (the
`ensure_user_access_token` call at line 398 sits outside every `try`). -/
def main (args : Args) (env : Env) (w : World) : BotState × Except PyError Int :=
  let s0 := initState env
  match env.VK_GROUP_ID with
  | none => (s0, .ok 1)
  | some gid_str =>
      if gid_str = "" then (s0, .ok 1)
      else
        match pyParseInt gid_str with
        | none => (s0, .ok 1)
        | some group_id =>
            if group_id ≤ 0 then (s0, .ok 1)
            else
              match read_message_from_args args w.fileContents with
              | .error _ => (s0, .ok 1)
              | .ok raw_message =>
                  let message := pyStrip raw_message
                  if message = "" then (s0, .ok 1)
                  else
                    let attachments : List String := args.attachments.getD []
                    let image_sources : List String := args.images.getD []
                    if image_sources.isEmpty && !pyTruthyInt args.edit then
                      mainUploadStage args env w s0 group_id message attachments
                        image_sources none
                    else
                      match ensure_user_access_token env.VK_OAUTH_CLIENT_ID
                          env.VK_OAUTH_CLIENT_SECRET w.tokenEndpoint reasonUpload s0 with
                      | (s1, .error e) => (s1, .error e)
                      | (s1, .ok tok) =>
                          mainUploadStage args env w s1 group_id message attachments
                            image_sources (some tok)

end vk_group_bot

/-- First element of a `photos.saveWallPhoto` response (the object the code
reads owner and photo id from); dummy ids when the response is not a
nonempty list. -/
def firstSavedPhoto : VkApiResult (List SavedPhoto) → SavedPhoto
  | .response (p :: _) => p
  | _ => { owner_id := 0, id := 0 }

/-- All the conditions under which `upload_photos_for_wall` gets past one
image source: its bytes load, the upload server's answer has the `photo`,
`server` and `hash` keys, and `photos.saveWallPhoto` answers a nonempty
list. -/
def uploadSourceOk (loadBinary : String → Except PyError (List Nat))
    (uploadServer : String → UploadResult)
    (savePhoto : String → VkApiResult (List SavedPhoto)) (src : String) : Prop :=
  (∃ bs, loadBinary src = .ok bs) ∧
  (uploadServer src).photo.isSome = true ∧
  (uploadServer src).server.isSome = true ∧
  (uploadServer src).hash.isSome = true ∧
  ∃ p rest, savePhoto src = .response (p :: rest)

/-- A fixed world for concrete instantiations. -/
def constWorld : World :=
  { fileContents := fun _ => none,
    tokenEndpoint := fun _ => {},
    getUploadServer := .apiError none none,
    loadBinary := fun _ => .error (.fileNotFoundError "missing"),
    uploadServer := fun _ => {},
    savePhoto := fun _ => .apiError none none,
    wallPost := .response {},
    wallEdit := .response {} }

/-! ### Supporting lemmas -/

theorem b64Chunks_length : ∀ bs : List Nat, (b64Chunks bs).length = (4 * bs.length + 2) / 3
  | [] => by simp [b64Chunks]
  | [_] => by simp [b64Chunks]
  | [_, _] => by simp [b64Chunks]
  | _ :: _ :: _ :: rest => by
      have ih := b64Chunks_length rest
      simp [b64Chunks, ih]
      omega

theorem b64Char_mem (n : Nat) : b64Char n ∈ b64urlAlphabet := by
  by_cases h : n < 64
  · have hb : ∀ m : Nat, m < 64 → b64Char m ∈ b64urlAlphabet := by decide
    exact hb n h
  · have hlen : b64urlAlphabet.length ≤ n := by
      have : b64urlAlphabet.length = 64 := rfl
      omega
    unfold b64Char
    rw [List.getD_eq_default _ _ hlen]
    decide

theorem b64Chunks_mem : ∀ bs : List Nat, ∀ c ∈ b64Chunks bs, c ∈ b64urlAlphabet
  | [], c, hc => by simp [b64Chunks] at hc
  | [b1], c, hc => by
      simp [b64Chunks] at hc
      rcases hc with h | h <;> subst h <;> exact b64Char_mem _
  | [b1, b2], c, hc => by
      simp [b64Chunks] at hc
      rcases hc with h | h | h <;> subst h <;> exact b64Char_mem _
  | b1 :: b2 :: b3 :: rest, c, hc => by
      simp only [b64Chunks, List.mem_cons] at hc
      rcases hc with h | h | h | h | h
      · subst h; exact b64Char_mem _
      · subst h; exact b64Char_mem _
      · subst h; exact b64Char_mem _
      · subst h; exact b64Char_mem _
      · exact b64Chunks_mem rest c h

/-- C3: the spec says `generate_verifier(L)` returns a string of exactly `L`
characters for `L` in `[43,128]`.  In fact the code base64url-encodes `L`
random bytes and only clamps the result into `[43,128]`, so the output has
`min ((4*L+2)/3) 128` characters — equal to `L` only at `L = 128`.  Outside
`[43,128]` it does fail as claimed (`ValueError`, the spec's ConfigError). -/
theorem generate_code_verifier_clamped :
    ∀ (length : Nat) (raw : List Nat), raw.length = length → (∀ b ∈ raw, b < 256) →
      ((43 ≤ length ∧ length ≤ 128) →
        ∃ s : String, generate_code_verifier length raw = .ok s ∧
          s.length = min ((4 * length + 2) / 3) 128 ∧
          (∀ c ∈ s.data, c ∈ b64urlAlphabet) ∧
          (s.length = length ↔ length = 128)) ∧
      (length < 43 ∨ length > 128 →
        generate_code_verifier length raw =
          .error (.valueError "length must be between 43 and 128")) := by
  intro L raw hlen h256
  constructor
  · rintro ⟨h43, h128⟩
    have henc : (base64url_encode raw).length = (4 * L + 2) / 3 := by
      show (b64Chunks raw).length = _
      rw [b64Chunks_length, hlen]
    have hnotsmall : ¬ (base64url_encode raw).length < 43 := by omega
    have hcond : ¬ (L < 43 ∨ L > 128) := by omega
    by_cases hbig : (base64url_encode raw).length > 128
    · refine ⟨String.mk ((base64url_encode raw).data.take 128), ?_, ?_, ?_, ?_⟩
      · simp [generate_code_verifier, hcond, hnotsmall, hbig]
      · have hdata : (base64url_encode raw).data.length = (4 * L + 2) / 3 := henc
        show ((base64url_encode raw).data.take 128).length = _
        rw [List.length_take]
        omega
      · intro c hc
        have hc' : c ∈ (base64url_encode raw).data := (List.take_sublist _ _).subset hc
        exact b64Chunks_mem raw c hc'
      · have hdata : (base64url_encode raw).data.length = (4 * L + 2) / 3 := henc
        show ((base64url_encode raw).data.take 128).length = L ↔ L = 128
        rw [List.length_take]
        omega
    · refine ⟨base64url_encode raw, ?_, ?_, ?_, ?_⟩
      · simp [generate_code_verifier, hcond, hnotsmall, hbig]
      · omega
      · exact b64Chunks_mem raw
      · omega
  · intro h
    simp [generate_code_verifier, h]

/-- C3 counterexample: at requested length 43 the verifier has 58
characters, not 43. -/
theorem generate_code_verifier_counterexample :
    Except.map String.length (generate_code_verifier 43 (List.replicate 43 0)) =
      .ok 58 ∧ 58 ≠ 43 :=
  ⟨rfl, by decide⟩

/-- C3 witness: the amended statement instantiated at length 43 with 43 zero
bytes. -/
theorem generate_code_verifier_clamped_witness :
    ∃ s : String, generate_code_verifier 43 (List.replicate 43 0) = .ok s ∧
      s.length = min ((4 * 43 + 2) / 3) 128 ∧
      (∀ c ∈ s.data, c ∈ b64urlAlphabet) ∧
      (s.length = 43 ↔ 43 = 128) :=
  (generate_code_verifier_clamped 43 (List.replicate 43 0) (by simp) (by
    intro b hb
    simp at hb
    omega)).1 ⟨by omega, by omega⟩

set_option maxRecDepth 100000 in
/-- C4: the challenge is the unpadded base64url encoding of the SHA-256
digest of the verifier's ASCII bytes; the function is deterministic; and the
spec's pinned test vector for the verifier of 43 `A` characters holds. -/
theorem generate_code_challenge_spec :
    (∀ verifier : String, (∀ c ∈ verifier.data, c.toNat < 128) →
      generate_code_challenge verifier =
        .ok (base64url_encode (sha256 (verifier.data.map Char.toNat)))) ∧
    (∀ v1 v2 : String, v1 = v2 →
      generate_code_challenge v1 = generate_code_challenge v2) ∧
    generate_code_challenge (String.mk (List.replicate 43 'A')) =
      .ok "DwBzhbb51LfusnSGBa_hqYSgo7-j8BTQnip4TOnlzRo" := by
  refine ⟨?_, ?_, ?_⟩
  · intro v h
    have hall : v.data.all (fun c => decide (c.toNat < 128)) = true := by
      rw [List.all_eq_true]
      intro c hc
      simpa using h c hc
    simp [generate_code_challenge, encodeAscii, hall]
  · intro v1 v2 h
    rw [h]
  · exact rfl

set_option maxRecDepth 100000 in
/-- C4 witness: the characterization instantiated at the concrete ASCII
verifier `"abc"`. -/
theorem generate_code_challenge_spec_witness :
    generate_code_challenge "abc" =
      .ok (base64url_encode (sha256 ("abc".data.map Char.toNat))) :=
  generate_code_challenge_spec.1 "abc" (by decide)

/-- C10: a `wall.edit` response without `post_id` makes
`edit_group_wall_post` return its own `post_id` argument, and a `wall.post`
response without `post_id` makes `post_to_group_wall` return `-1`. -/
theorem wall_post_id_defaults :
    (∀ (group_id : Int) (token message : String) (attachments : Option (List String)),
      post_to_group_wall group_id token message attachments
        (.response { post_id := none }) = .ok (-1)) ∧
    (∀ (group_id : Int) (token : String) (post_id : Int) (message : String)
        (attachments : Option (List String)),
      edit_group_wall_post group_id token post_id message attachments
        (.response { post_id := none }) = .ok post_id) := by
  constructor <;> intros <;> rfl

/-- C6: a token-endpoint response with an `error` field makes both exchanges
fail, carrying the error code and description verbatim in the message; the
refresh exchange also fails when `access_token` is absent, and on success
returns the access token with the optional `refresh_token` and `expires_in`
of the response. -/
theorem token_endpoint_error_handling :
    ∀ (cfg : VkAppConfig) (code device_id code_verifier rt cid cs : String)
      (td : TokenResponse),
      (∀ e, td.error = some e →
        exchange_code_for_token cfg code device_id code_verifier td =
          .error (.runtimeError ("VK вернул ошибку при обмене кода: " ++ e ++ " — " ++
            pyShowOptStr td.error_description)) ∧
        refresh_access_token rt cid cs td =
          .error (.vkApiError ("VK OAuth error " ++ e ++ ": " ++
            pyShowOptStr td.error_description))) ∧
      (td.error = none → td.access_token = none →
        refresh_access_token rt cid cs td =
          .error (.vkApiError "VK OAuth не вернул access_token при обновлении по refresh_token.")) ∧
      (∀ tok, td.error = none → td.access_token = some tok → tok ≠ "" →
        refresh_access_token rt cid cs td = .ok (tok, td.refresh_token, td.expires_in)) := by
  intro cfg code device_id code_verifier rt cid cs td
  refine ⟨?_, ?_, ?_⟩
  · intro e he
    constructor
    · simp [exchange_code_for_token, he, pyShowOptStr]
    · simp [refresh_access_token, he, pyShowOptStr]
  · intro he ha
    simp [refresh_access_token, he, ha, pyTruthy]
  · intro tok he ha htok
    simp [refresh_access_token, he, ha, pyTruthy, htok]

/-- C6 witness: the three cases at concrete responses. -/
theorem token_endpoint_error_handling_witness :
    exchange_code_for_token { client_id := "c" } "code" "dev" "ver"
        { error := some "invalid_grant", error_description := some "bad" } =
      .error (.runtimeError "VK вернул ошибку при обмене кода: invalid_grant — bad") ∧
    refresh_access_token "r" "c" "s" { access_token := none } =
      .error (.vkApiError "VK OAuth не вернул access_token при обновлении по refresh_token.") ∧
    refresh_access_token "r" "c" "s"
        { access_token := some "X", refresh_token := some "Y", expires_in := some 0 } =
      .ok ("X", some "Y", some 0) :=
  ⟨((token_endpoint_error_handling { client_id := "c" } "code" "dev" "ver" "r" "c" "s"
      { error := some "invalid_grant", error_description := some "bad" }).1
      "invalid_grant" rfl).1,
   (token_endpoint_error_handling { client_id := "c" } "code" "dev" "ver" "r" "c" "s"
      { access_token := none }).2.1 rfl rfl,
   (token_endpoint_error_handling { client_id := "c" } "code" "dev" "ver" "r" "c" "s"
      { access_token := some "X", refresh_token := some "Y", expires_in := some 0 }).2.2
      "X" rfl rfl (by decide)⟩

/-- C1: when the token endpoint answers the refresh with a rotated
`refresh_token`, `ensure_user_access_token` replaces the run's refresh token
with the new value, prints a stderr notice that quotes the new value
verbatim, and returns the fresh access token; the resulting state holds the
new refresh token, distinct by hypothesis from the old one. -/
theorem refresh_rotation_propagates :
    ∀ (ocid ocs : Option String) (te : String → TokenResponse) (reason : String)
      (s : BotState) (rt tok nr : String),
      pyTruthy s.user_access_token = false →
      s.refresh_token = some rt → rt ≠ "" →
      pyTruthy ocid = true → pyTruthy ocs = true →
      (te rt).error = none →
      (te rt).access_token = some tok → tok ≠ "" →
      (te rt).refresh_token = some nr → nr ≠ "" → nr ≠ rt →
      ensure_user_access_token ocid ocs te reason s =
        ({ s with refresh_calls := s.refresh_calls + 1,
                  user_access_token := some tok,
                  refresh_token := some nr,
                  stderr := rotationNotice nr :: s.stderr }, .ok tok) ∧
      rotationNotice nr =
        "ВНИМАНИЕ: VK выдал новый refresh_token. Обнови VK_USER_TOKEN в своём .env на значение ниже:\n" ++
          nr ++ "\n" := by
  intro ocid ocs te reason s rt tok nr hu hr hrne hocid hocs herr hac htok hnr hnrne hnrrt
  refine ⟨?_, rfl⟩
  have hrt : pyTruthy s.refresh_token = true := by
    rw [hr]
    simpa [pyTruthy] using hrne
  simp only [ensure_user_access_token, hu, hrt, hocid, hocs, hr]
  simp [refresh_access_token, herr, hac, pyTruthy, htok, hnr, hnrne, hnrrt, hrne]

/-- C1 witness: rotation at a concrete state and endpoint response. -/
theorem refresh_rotation_propagates_witness :
    ensure_user_access_token (some "cid") (some "sec")
        (fun _ => { access_token := some "AT", refresh_token := some "NEW", expires_in := some 0 })
        "загрузить изображения в пост"
        { user_access_token := none, refresh_token := some "OLD",
          refresh_calls := 0, stderr := [] } =
      ({ user_access_token := some "AT", refresh_token := some "NEW",
         refresh_calls := 1, stderr := [rotationNotice "NEW"] }, .ok "AT") ∧
    rotationNotice "NEW" =
      "ВНИМАНИЕ: VK выдал новый refresh_token. Обнови VK_USER_TOKEN в своём .env на значение ниже:\n" ++
        "NEW" ++ "\n" :=
  refresh_rotation_propagates (some "cid") (some "sec")
    (fun _ => { access_token := some "AT", refresh_token := some "NEW", expires_in := some 0 })
    "загрузить изображения в пост"
    { user_access_token := none, refresh_token := some "OLD", refresh_calls := 0, stderr := [] }
    "OLD" "AT" "NEW" rfl rfl (by decide) rfl rfl rfl rfl (by decide) rfl (by decide) (by decide)

/-- C9: once a call to `ensure_user_access_token` has succeeded, calling it
again (with any reason) returns the same token and the very same state — in
particular it performs no further call to the token endpoint — and any
single call raises the refresh-call count by at most one. -/
theorem ensure_user_access_token_cached :
    ∀ (ocid ocs : Option String) (te : String → TokenResponse) (r1 r2 : String)
      (s s' : BotState) (t : String),
      ensure_user_access_token ocid ocs te r1 s = (s', .ok t) →
      ensure_user_access_token ocid ocs te r2 s' = (s', .ok t) ∧
      s'.refresh_calls ≤ s.refresh_calls + 1 := by
  intro ocid ocs te r1 r2 s s' t h
  have key : s'.user_access_token = some t ∧ t ≠ "" ∧
      s'.refresh_calls ≤ s.refresh_calls + 1 := by
    unfold ensure_user_access_token at h
    by_cases hu : pyTruthy s.user_access_token = true
    · rw [if_pos hu, Prod.mk.injEq] at h
      obtain ⟨h1, h2⟩ := h
      subst h1
      rw [Except.ok.injEq] at h2
      rcases hux : s.user_access_token with _ | v
      · rw [hux] at hu; simp [pyTruthy] at hu
      · rw [hux] at hu h2
        simp [pyTruthy] at hu
        simp at h2
        subst h2
        exact ⟨rfl, hu, Nat.le_succ _⟩
    · rw [if_neg hu] at h
      by_cases hr : pyTruthy s.refresh_token = true
      · rw [if_neg (by simp [hr])] at h
        by_cases hc : pyTruthy ocid = true ∧ pyTruthy ocs = true
        · rw [if_neg (by simp [hc.1, hc.2])] at h
          dsimp only at h
          rcases hrefresh : refresh_access_token (s.refresh_token.getD "")
              (ocid.getD "") (ocs.getD "") (te (s.refresh_token.getD "")) with e | trip
          · rw [hrefresh] at h
            simp at h
          · rw [hrefresh] at h
            have hat : pyTruthy (te (s.refresh_token.getD "")).access_token = true ∧
                trip.1 = (te (s.refresh_token.getD "")).access_token.getD "" := by
              unfold refresh_access_token at hrefresh
              by_cases he : (te (s.refresh_token.getD "")).error.isSome
              · simp [he] at hrefresh
              · simp only [he, Bool.false_eq_true, if_false] at hrefresh
                by_cases ha : pyTruthy (te (s.refresh_token.getD "")).access_token = true
                · simp [he, ha] at hrefresh
                  exact ⟨ha, by rw [← hrefresh]⟩
                · simp [he, ha] at hrefresh
            obtain ⟨hatp, hat1⟩ := hat
            have htne : trip.1 ≠ "" := by
              rcases hax : (te (s.refresh_token.getD "")).access_token with _ | v
              · rw [hax] at hatp; simp [pyTruthy] at hatp
              · rw [hax] at hatp hat1
                simp [pyTruthy] at hatp
                simp at hat1
                rw [hat1]
                exact hatp
            rcases htrip : trip with ⟨a, onew, oexp⟩
            rw [htrip] at h htne
            simp only at htne
            rcases onew with _ | nr
            · dsimp only at h
              rw [Prod.mk.injEq] at h
              obtain ⟨h1, h2⟩ := h
              rw [Except.ok.injEq] at h2
              subst h2
              rw [← h1]
              exact ⟨rfl, htne, by simp⟩
            · dsimp only at h
              by_cases hcond : nr ≠ "" ∧ nr ≠ s.refresh_token.getD ""
              · rw [if_pos hcond, Prod.mk.injEq] at h
                obtain ⟨h1, h2⟩ := h
                rw [Except.ok.injEq] at h2
                subst h2
                rw [← h1]
                exact ⟨rfl, htne, by simp⟩
              · rw [if_neg hcond, Prod.mk.injEq] at h
                obtain ⟨h1, h2⟩ := h
                rw [Except.ok.injEq] at h2
                subst h2
                rw [← h1]
                exact ⟨rfl, htne, by simp⟩
        · rw [if_pos ?side] at h
          · simp at h
          case side =>
            intro hand
            exact hc ⟨hand.1, hand.2⟩
      · rw [if_pos (by simp [hr])] at h
        simp at h
  obtain ⟨hsome, htne, hle⟩ := key
  refine ⟨?_, hle⟩
  have hu' : pyTruthy s'.user_access_token = true := by simp [hsome, pyTruthy, htne]
  rw [ensure_user_access_token, if_pos hu', hsome]
  rfl

/-- C9 witness: a pre-supplied access token is returned unchanged, and the
count bound holds, at a concrete state. -/
theorem ensure_user_access_token_cached_witness :
    ensure_user_access_token (some "cid") (some "sec") (fun _ => {}) "r2"
        { user_access_token := some "CACHED", refresh_token := some "R",
          refresh_calls := 0, stderr := [] } =
      ({ user_access_token := some "CACHED", refresh_token := some "R",
         refresh_calls := 0, stderr := [] }, .ok "CACHED") ∧
    ({ user_access_token := some "CACHED", refresh_token := some "R",
       refresh_calls := 0, stderr := [] } : BotState).refresh_calls ≤
      ({ user_access_token := some "CACHED", refresh_token := some "R",
         refresh_calls := 0, stderr := [] } : BotState).refresh_calls + 1 :=
  ensure_user_access_token_cached (some "cid") (some "sec") (fun _ => {}) "r1" "r2"
    { user_access_token := some "CACHED", refresh_token := some "R",
      refresh_calls := 0, stderr := [] }
    { user_access_token := some "CACHED", refresh_token := some "R",
      refresh_calls := 0, stderr := [] } "CACHED" rfl

/-- C8: the authorization URL builder is pure — equal inputs give the
identical string — and the URL is the authorize endpoint followed by exactly
the seven query parameters `response_type=code`, `client_id`, `scope`,
`redirect_uri`, `state`, `code_challenge`, `code_challenge_method=S256`,
each value percent-encoded from the builder's inputs. -/
theorem build_authorize_url_spec :
    ∀ (cfg cfg2 : VkAppConfig) (ch ch2 : String),
      (cfg = cfg2 → ch = ch2 → build_authorize_url cfg ch = build_authorize_url cfg2 ch2) ∧
      build_authorize_url cfg ch =
        AUTH_URL ++ "?" ++ joinAmp
          ["response_type=code",
           "client_id=" ++ quote_plus cfg.client_id,
           "scope=" ++ quote_plus cfg.scope,
           "redirect_uri=" ++ quote_plus cfg.redirect_uri,
           "state=" ++ quote_plus cfg.state,
           "code_challenge=" ++ quote_plus ch,
           "code_challenge_method=S256"] := by
  intro cfg cfg2 ch ch2
  constructor
  · intro h1 h2
    rw [h1, h2]
  · rfl

/-- C8 witness: both conjuncts at concrete configuration and challenge. -/
theorem build_authorize_url_spec_witness :
    build_authorize_url { client_id := "123" } "CH" =
      AUTH_URL ++ "?" ++ joinAmp
        ["response_type=code",
         "client_id=" ++ quote_plus "123",
         "scope=" ++ quote_plus "wall,photos,groups",
         "redirect_uri=" ++ quote_plus "https://oauth.vk.com/blank.html",
         "state=" ++ quote_plus "vk_cli_state_12345",
         "code_challenge=" ++ quote_plus "CH",
         "code_challenge_method=S256"] :=
  (build_authorize_url_spec { client_id := "123" } { client_id := "123" } "CH" "CH").2

theorem redirect_get_param_eq (q f name : String) :
    redirect_get_param q f name = (parse_qs q name ++ parse_qs f name).head? := by
  unfold redirect_get_param
  rcases parse_qs q name with _ | ⟨v, rest⟩
  · rcases parse_qs f name with _ | ⟨w, rest2⟩ <;> simp
  · simp

set_option maxRecDepth 100000 in
/-- C5: `parse_redirect_url` takes `code` and `device_id` from the query
string or, failing that, from the fragment (query wins); a missing or empty
`code` yields the `ValueError` naming `'code'`, a missing or empty
`device_id` the distinct `ValueError` naming `'device_id'`; when both are
found the pair is returned. -/
theorem parse_redirect_url_spec :
    ∀ (url q f : String),
      urlQueryFragment (pyStrip url) = (q, f) →
      (pyTruthy (parse_qs q "code" ++ parse_qs f "code").head? = false →
        parse_redirect_url url = .error (.valueError codeMissingMsg)) ∧
      (pyTruthy (parse_qs q "code" ++ parse_qs f "code").head? = true →
       pyTruthy (parse_qs q "device_id" ++ parse_qs f "device_id").head? = false →
        parse_redirect_url url = .error (.valueError deviceIdMissingMsg)) ∧
      (∀ c d, (parse_qs q "code" ++ parse_qs f "code").head? = some c → c ≠ "" →
        (parse_qs q "device_id" ++ parse_qs f "device_id").head? = some d → d ≠ "" →
        parse_redirect_url url = .ok (c, d)) ∧
      codeMissingMsg ≠ deviceIdMissingMsg ∧
      List.IsInfix "'code'".data codeMissingMsg.data ∧
      List.IsInfix "'device_id'".data deviceIdMissingMsg.data ∧
      ¬ List.IsInfix "'device_id'".data codeMissingMsg.data ∧
      ¬ List.IsInfix "'code'".data deviceIdMissingMsg.data := by
  intro url q f hqf
  refine ⟨?_, ?_, ?_, by decide, by decide, by decide, by decide, by decide⟩
  · intro hcode
    simp only [List.head?_append] at hcode
    simp [parse_redirect_url, hqf, redirect_get_param_eq, hcode]
  · intro hcode hdev
    simp only [List.head?_append] at hcode hdev
    simp [parse_redirect_url, hqf, redirect_get_param_eq, hcode, hdev]
  · intro c d hc hcne hd hdne
    simp only [List.head?_append] at hc hd
    simp [parse_redirect_url, hqf, redirect_get_param_eq, hc, hd, pyTruthy, hcne, hdne]

/-- C5 witness: the spec's query-string example, with both parameters
present. -/
theorem parse_redirect_url_spec_witness :
    parse_redirect_url "https://oauth.vk.com/blank.html?code=abc&device_id=42" =
      .ok ("abc", "42") :=
  (parse_redirect_url_spec "https://oauth.vk.com/blank.html?code=abc&device_id=42"
    "code=abc&device_id=42" "" rfl).2.2.1 "abc" "42" rfl (by decide) rfl (by decide)

theorem uploadLoop_ok (lb : String → Except PyError (List Nat))
    (us : String → UploadResult) (sp : String → VkApiResult (List SavedPhoto)) :
    ∀ (sources atts saved : List String),
      (∀ src ∈ sources, uploadSourceOk lb us sp src) →
      uploadLoop lb us sp sources atts saved =
        (.ok (atts.reverse ++ sources.map (fun src => attachmentString (firstSavedPhoto (sp src)))),
         saved.reverse ++ sources) := by
  intro sources
  induction sources with
  | nil => intro atts saved _; simp [uploadLoop]
  | cons src rest ih =>
      intro atts saved hok
      obtain ⟨⟨bs, hbs⟩, hp, hs, hh, p, prest, hsp⟩ := hok src (by simp)
      rw [uploadLoop, hbs]
      dsimp only
      rw [if_neg (by simp [hp, hs, hh]), hsp]
      dsimp only [vk_request]
      rw [ih _ _ (fun x hx => hok x (by simp [hx]))]
      simp [hsp, firstSavedPhoto]

theorem uploadLoop_fail (lb : String → Except PyError (List Nat))
    (us : String → UploadResult) (sp : String → VkApiResult (List SavedPhoto))
    (bad : String) (post : List String)
    (hload : ∃ bs, lb bad = .ok bs)
    (hbad : ((us bad).photo.isSome = true ∧ (us bad).server.isSome = true ∧
      (us bad).hash.isSome = true) → False) :
    ∀ (pre atts saved : List String),
      (∀ src ∈ pre, uploadSourceOk lb us sp src) →
      uploadLoop lb us sp (pre ++ bad :: post) atts saved =
        (.error (.vkApiError "Неожиданный ответ сервера загрузки фото"),
         saved.reverse ++ pre) := by
  intro pre
  induction pre with
  | nil =>
      intro atts saved _
      obtain ⟨bs, hbs⟩ := hload
      rw [List.nil_append, uploadLoop, hbs]
      dsimp only
      rw [if_pos hbad]
      simp
  | cons src rest ih =>
      intro atts saved hok
      obtain ⟨⟨bs, hbs⟩, hp, hs, hh, p, prest, hsp⟩ := hok src (by simp)
      rw [List.cons_append, uploadLoop, hbs]
      dsimp only
      rw [if_neg (by simp [hp, hs, hh]), hsp]
      dsimp only [vk_request]
      rw [ih _ _ (fun x hx => hok x (by simp [hx]))]
      simp

/-- C7: when every source uploads cleanly the attachment list is exactly the
input list mapped, in order, to `photo<owner_id>_<photo_id>` of that source's
registration; and when one source's upload-server answer lacks one of
`photo`, `server`, `hash`, the call fails with the repository's
`VkApiError` (the spec's UnexpectedResponseError) while the sources
registered before it stay registered (no rollback). -/
theorem upload_photos_order_and_failure :
    ∀ (gid : Int) (tok : String) (srv : UploadServerResponse)
      (lb : String → Except PyError (List Nat)) (us : String → UploadResult)
      (sp : String → VkApiResult (List SavedPhoto)),
      (∀ sources : List String, (∀ src ∈ sources, uploadSourceOk lb us sp src) →
        upload_photos_for_wall gid tok sources (.response srv) lb us sp =
          (.ok (sources.map (fun src => attachmentString (firstSavedPhoto (sp src)))),
           sources)) ∧
      (∀ (pre post : List String) (bad : String),
        (∀ src ∈ pre, uploadSourceOk lb us sp src) →
        (∃ bs, lb bad = .ok bs) →
        (((us bad).photo.isSome = true ∧ (us bad).server.isSome = true ∧
          (us bad).hash.isSome = true) → False) →
        upload_photos_for_wall gid tok (pre ++ bad :: post) (.response srv) lb us sp =
          (.error (.vkApiError "Неожиданный ответ сервера загрузки фото"), pre)) := by
  intro gid tok srv lb us sp
  constructor
  · intro sources hok
    rcases sources with _ | ⟨src, rest⟩
    · simp [upload_photos_for_wall]
    · rw [upload_photos_for_wall]
      rw [if_neg (by simp)]
      show uploadLoop lb us sp (src :: rest) [] [] = _
      rw [uploadLoop_ok lb us sp (src :: rest) [] [] hok]
      simp
  · intro pre post bad hok hload hbad
    rw [upload_photos_for_wall]
    rw [if_neg (by simp)]
    show uploadLoop lb us sp (pre ++ bad :: post) [] [] = _
    rw [uploadLoop_fail lb us sp bad post hload hbad pre [] [] hok]
    simp

/-- C7 witness: one clean source, fully registered. -/
theorem upload_photos_order_and_failure_witness :
    upload_photos_for_wall 7 "tok" ["a"] (.response { upload_url := "u" })
        (fun _ => .ok [1])
        (fun _ => { photo := some "p", server := some "s", hash := some "h" })
        (fun _ => .response [{ owner_id := -5, id := 10 }]) =
      (.ok ["photo-5_10"], ["a"]) :=
  (upload_photos_order_and_failure 7 "tok" { upload_url := "u" }
      (fun _ => .ok [1])
      (fun _ => { photo := some "p", server := some "s", hash := some "h" })
      (fun _ => .response [{ owner_id := -5, id := 10 }])).1 ["a"]
    (fun src _ => ⟨⟨[1], rfl⟩, rfl, rfl, rfl, { owner_id := -5, id := 10 }, [], rfl⟩)

theorem pyTruthy_isSome {o : Option String} (h : pyTruthy o = true) : ∃ v, o = some v := by
  rcases o with _ | v
  · simp [pyTruthy] at h
  · exact ⟨v, rfl⟩

theorem mainPostStage_fst (args : Args) (w : World) (s : BotState) (gid : Int)
    (msg : String) (atts : List String) (atu wt : Option String) :
    (mainPostStage args w s gid msg atts atu wt).1 = s := by
  unfold mainPostStage
  rcases wt with _ | wt
  · rfl
  · dsimp only
    split
    · split <;> rfl
    · split <;> rfl

theorem mainWallTokenStage_fst (args : Args) (env : Env) (w : World) (s : BotState)
    (gid : Int) (msg : String) (atts : List String) (atu : Option String)
    (h : pyTruthy env.VK_GROUP_TOKEN = true) :
    (mainWallTokenStage args env w s gid msg atts atu).1 = s := by
  obtain ⟨v, hv⟩ := pyTruthy_isSome h
  have hv2 : pyTruthy (some v) = true := by rw [← hv]; exact h
  unfold mainWallTokenStage
  simp only [hv, hv2, if_true]
  exact mainPostStage_fst args w s gid msg atts atu (some v)

theorem mainUploadStage_fst (args : Args) (env : Env) (w : World) (s : BotState)
    (gid : Int) (msg : String) (atts srcs : List String) (atu : Option String)
    (h : pyTruthy env.VK_GROUP_TOKEN = true) :
    (mainUploadStage args env w s gid msg atts srcs atu).1 = s := by
  unfold mainUploadStage
  split
  · exact mainWallTokenStage_fst args env w s gid msg atts atu h
  · split
    · rfl
    · exact mainWallTokenStage_fst args env w s gid msg _ atu h

theorem ensure_calls_increment (ocid ocs : Option String) (te : String → TokenResponse)
    (reason : String) (s : BotState)
    (hu : pyTruthy s.user_access_token = false)
    (hr : pyTruthy s.refresh_token = true)
    (hc1 : pyTruthy ocid = true) (hc2 : pyTruthy ocs = true) :
    (ensure_user_access_token ocid ocs te reason s).1.refresh_calls = s.refresh_calls + 1 := by
  unfold ensure_user_access_token
  rw [if_neg (by simp [hu]), if_neg (by simp [hr]), if_neg (by simp [hc1, hc2])]
  dsimp only
  split
  · rfl
  · split
    · split <;> rfl
    · rfl

/-- C2: with a community token set, no images, and no edit, a whole run of
`main` performs zero refresh-token exchanges, whatever else the environment
and the remote side do; with images requested (and no cached user access
token), a run that gets past the argument checks performs exactly one
refresh-token exchange even though the community token is set. -/
theorem refresh_call_policy :
    ∀ (args : Args) (env : Env) (w : World),
      (pyTruthy env.VK_GROUP_TOKEN = true → args.images.getD [] = [] →
        pyTruthyInt args.edit = false →
        (vk_group_bot.main args env w).1.refresh_calls = 0) ∧
      (∀ (gidStr m : String) (gid : Int) (srcs : List String),
        env.VK_GROUP_ID = some gidStr → gidStr ≠ "" → pyParseInt gidStr = some gid →
        0 < gid → args.message = some m → m ≠ "" → args.message_file = none →
        pyStrip m ≠ "" → args.images = some srcs → srcs ≠ [] →
        pyTruthy env.VK_GROUP_TOKEN = true →
        pyTruthy env.VK_ACCESS_TOKEN = false →
        pyTruthy env.VK_USER_TOKEN = true →
        pyTruthy env.VK_OAUTH_CLIENT_ID = true →
        pyTruthy env.VK_OAUTH_CLIENT_SECRET = true →
        (vk_group_bot.main args env w).1.refresh_calls = 1) := by
  intro args env w
  constructor
  · intro hg himg hedit
    unfold vk_group_bot.main
    split
    · rfl
    · split
      · rfl
      · split
        · rfl
        · split
          · rfl
          · split
            · rfl
            · dsimp only
              split
              · rfl
              · have hcond : ((args.images.getD []).isEmpty && !pyTruthyInt args.edit) = true := by
                  rw [himg, hedit]
                  rfl
                rw [if_pos hcond, mainUploadStage_fst _ _ _ _ _ _ _ _ _ hg]
                rfl
  · intro gidStr m gid srcs hgid hgidne hparse hpos hm hmne hmf hstrip himgs hsrcne
      hgt hat hut hcid hcs
    unfold vk_group_bot.main
    simp only [hgid]
    rw [if_neg hgidne]
    simp only [hparse]
    rw [if_neg (by omega : ¬ gid ≤ 0)]
    have hread : read_message_from_args args w.fileContents = .ok m := by
      unfold read_message_from_args
      rw [if_neg (by simp [hmf, pyTruthy]), if_pos (by simp [hm, pyTruthy, hmne])]
      rw [hm]
      rfl
    simp only [hread]
    rw [if_neg hstrip]
    have hempty : srcs.isEmpty = false := by
      rcases srcs with _ | ⟨a, rest⟩
      · simp at hsrcne
      · rfl
    have hcond : ((args.images.getD []).isEmpty && !pyTruthyInt args.edit) = false := by
      rw [himgs]
      simp [hempty]
    rw [if_neg (by simp [hcond])]
    have hu0 : pyTruthy (initState env).user_access_token = false := hat
    have hr0 : pyTruthy (initState env).refresh_token = true := hut
    have hcalls := ensure_calls_increment env.VK_OAUTH_CLIENT_ID env.VK_OAUTH_CLIENT_SECRET
      w.tokenEndpoint reasonUpload (initState env) hu0 hr0 hcid hcs
    rcases hens : ensure_user_access_token env.VK_OAUTH_CLIENT_ID env.VK_OAUTH_CLIENT_SECRET
        w.tokenEndpoint reasonUpload (initState env) with ⟨s1, r⟩
    rw [hens] at hcalls
    have hs0 : (initState env).refresh_calls = 0 := rfl
    rw [hs0] at hcalls
    rcases r with e | tok
    · simp only [hens]
      exact hcalls
    · simp only [hens]
      rw [mainUploadStage_fst _ _ _ _ _ _ _ _ _ hgt]
      exact hcalls

/-- C2 witness: both policies at concrete runs — a text-only run with a
community token makes no refresh call, an image run with a community token
makes exactly one. -/
theorem refresh_call_policy_witness :
    (vk_group_bot.main { message := some "hi" } { VK_GROUP_TOKEN := some "G" }
      constWorld).1.refresh_calls = 0 ∧
    (vk_group_bot.main
      { message := some "hi", images := some ["img.jpg"] }
      { VK_GROUP_ID := some "12345678", VK_GROUP_TOKEN := some "G",
        VK_USER_TOKEN := some "R", VK_OAUTH_CLIENT_ID := some "C",
        VK_OAUTH_CLIENT_SECRET := some "S" }
      constWorld).1.refresh_calls = 1 :=
  ⟨(refresh_call_policy { message := some "hi" } { VK_GROUP_TOKEN := some "G" }
      constWorld).1 rfl rfl rfl,
   (refresh_call_policy { message := some "hi", images := some ["img.jpg"] }
      { VK_GROUP_ID := some "12345678", VK_GROUP_TOKEN := some "G",
        VK_USER_TOKEN := some "R", VK_OAUTH_CLIENT_ID := some "C",
        VK_OAUTH_CLIENT_SECRET := some "S" }
      constWorld).2 "12345678" "hi" 12345678 ["img.jpg"] rfl (by decide) rfl
      (by omega) rfl (by decide) rfl (by decide) rfl (by simp) rfl rfl rfl rfl rfl⟩
